import Mathlib

/-!
Shallow embedding of the book-library REST service (Express routers for the
Book and Author resources).  Each HTTP handler is modelled as a pure function
from the persisted collection (a list of records) and the parsed request to a
response together with the collection after the request.  The storage layer
(Mongoose/MongoDB) is modelled by list operations: findOne is List.find?,
findByIdAndUpdate merges the supplied fields, findByIdAndDelete erases the
matched record; the duplicate-key failure a storage uniqueness index can raise
on insert (Mongo error code 11000) is modelled by an explicit outcome
parameter of the insert step.
-/

namespace BookLib

/-- The trim sanitizer: remove leading and trailing whitespace.  Modelled
over the character list of the string. -/
def strTrim (s : String) : String :=
  ⟨((s.data.dropWhile Char.isWhitespace).reverse.dropWhile Char.isWhitespace).reverse⟩

/-- Hex digit as accepted by the Mongo ObjectId format. -/
def isHexDigit (c : Char) : Bool :=
  c.isDigit || (('a' ≤ c) && (c ≤ 'f')) || (('A' ≤ c) && (c ≤ 'F'))

/-- validator.js isMongoId: exactly 24 hexadecimal characters. -/
def isMongoId (s : String) : Bool :=
  s.length == 24 && s.data.all isHexDigit

/-- The ISBN pattern of the route validation: 10 or 13 decimal digits. -/
def isbnOk (s : String) : Bool :=
  (s.length == 10 || s.length == 13) && s.data.all Char.isDigit

/-- Genre enumeration of the Book validation chain. -/
def genres : List String := ["Mystery", "Fantasy", "Biography", "History", "Self-Help"]

/-- Gender enumeration of the Author validation chain. -/
def genders : List String := ["Male", "Female", "Other"]

/-- isLength with min and max, applied to an already-trimmed string. -/
def lenBetween (lo hi : Nat) (s : String) : Bool :=
  lo ≤ s.length && s.length ≤ hi

/-- One entry of the errors.array() payload of the validation middleware. -/
structure FieldError where
  field : String
  message : String
deriving DecidableEq

/-- A required string field: express-validator coerces a missing value to the
empty string, the trim sanitizer runs, then the check; a failing check
contributes one field error. -/
def checkReqStr (name : String) (v : Option String) (ok : String → Bool)
    (msg : String) : List FieldError :=
  if ok ((strTrim (v.getD ""))) then [] else [⟨name, msg⟩]

/-- A required string field without a trim sanitizer (genre, gender). -/
def checkReqStrRaw (name : String) (v : Option String) (ok : String → Bool)
    (msg : String) : List FieldError :=
  if ok (v.getD "") then [] else [⟨name, msg⟩]

/-- An optional string field with a trim sanitizer: absent skips all checks. -/
def checkOptStr (name : String) (v : Option String) (ok : String → Bool)
    (msg : String) : List FieldError :=
  match v with
  | none => []
  | some s => if ok (strTrim s) then [] else [⟨name, msg⟩]

/-- An optional string field without a trim sanitizer. -/
def checkOptStrRaw (name : String) (v : Option String) (ok : String → Bool)
    (msg : String) : List FieldError :=
  match v with
  | none => []
  | some s => if ok s then [] else [⟨name, msg⟩]

/-- A required integer field with an isInt range check. -/
def checkReqInt (name : String) (v : Option Int) (lo hi : Int)
    (msg : String) : List FieldError :=
  match v with
  | none => [⟨name, msg⟩]
  | some n => if lo ≤ n ∧ n ≤ hi then [] else [⟨name, msg⟩]

/-- An optional integer field with an isInt range check. -/
def checkOptInt (name : String) (v : Option Int) (lo hi : Int)
    (msg : String) : List FieldError :=
  match v with
  | none => []
  | some n => if lo ≤ n ∧ n ≤ hi then [] else [⟨name, msg⟩]

/-- notEmpty: fails on a missing value and on the empty string. -/
def checkNotEmpty (name : String) (v : Option String)
    (msg : String) : List FieldError :=
  match v with
  | none => [⟨name, msg⟩]
  | some s => if s == "" then [⟨name, msg⟩] else []

/-! ## Book resource -/

/-- A persisted Book document: the §3 field set plus the generated id.
description and available are optional fields of the payload and are stored
only when supplied. -/
structure Book where
  id : String
  title : String
  author : String
  isbn : String
  genre : String
  publicationYear : Int
  pages : Int
  description : Option String
  available : Option Bool
deriving DecidableEq

/-- A parsed JSON request body for the Book routes: every field is optional at
the transport level, presence is what the validation chains decide on. -/
structure BookPayload where
  title : Option String := none
  author : Option String := none
  isbn : Option String := none
  genre : Option String := none
  publicationYear : Option Int := none
  pages : Option Int := none
  description : Option String := none
  available : Option Bool := none
deriving DecidableEq

/-- Validation chain of POST /books, in source order.  The available field
carries a typed JSON boolean here, so its optional isBoolean check never
fails and contributes no entry. -/
def validateBookCreate (b : BookPayload) (currentYear : Int) : List FieldError :=
  checkReqStr "title" b.title (lenBetween 1 200)
    "Title is required and must be 1-200 characters" ++
  checkReqStr "author" b.author (lenBetween 1 100)
    "Author is required and must be 1-100 characters" ++
  checkReqStr "isbn" b.isbn isbnOk "ISBN must be 10 or 13 digits" ++
  checkReqStrRaw "genre" b.genre (genres.contains ·) "Invalid genre" ++
  checkReqInt "publicationYear" b.publicationYear 1000 currentYear
    "Publication year must be between 1000 and current year" ++
  checkReqInt "pages" b.pages 1 10000 "Pages must be between 1 and 10,000" ++
  checkOptStr "description" b.description (lenBetween 0 1000)
    "Description cannot exceed 1000 characters"

/-- Validation chain of PUT /books/:id, in source order: the id path
parameter, then every body field as optional. -/
def validateBookUpdate (id : String) (b : BookPayload) (currentYear : Int) :
    List FieldError :=
  (if isMongoId id then [] else [⟨"id", "Invalid book ID"⟩]) ++
  checkOptStr "title" b.title (lenBetween 1 200) "Title must be 1-200 characters" ++
  checkOptStr "author" b.author (lenBetween 1 100) "Author must be 1-100 characters" ++
  checkOptStr "isbn" b.isbn isbnOk "ISBN must be 10 or 13 digits" ++
  checkOptStrRaw "genre" b.genre (genres.contains ·) "Invalid genre" ++
  checkOptInt "publicationYear" b.publicationYear 1000 currentYear
    "Publication year must be between 1000 and current year" ++
  checkOptInt "pages" b.pages 1 10000 "Pages must be between 1 and 10,000" ++
  checkOptStr "description" b.description (lenBetween 0 1000)
    "Description cannot exceed 1000 characters"

/-- The isbn the handler sees after the trim sanitizer ran. -/
def bodyIsbn (b : BookPayload) : String := strTrim (b.isbn.getD "")

/-- new Book(req.body) with the generated id: the string fields carry the
sanitized (trimmed) values the validation chain left in req.body. -/
def mkBook (id : String) (b : BookPayload) : Book where
  id := id
  title := strTrim (b.title.getD "")
  author := strTrim (b.author.getD "")
  isbn := strTrim (b.isbn.getD "")
  genre := b.genre.getD ""
  publicationYear := b.publicationYear.getD 0
  pages := b.pages.getD 0
  description := b.description.map strTrim
  available := b.available

/-- findByIdAndUpdate with a plain body object: Mongoose issues a set of
exactly the supplied fields, so supplied fields take the (sanitized) payload
value and unsupplied fields keep their stored value. -/
def applyBookUpdate (b : Book) (u : BookPayload) : Book where
  id := b.id
  title := match u.title with | some t => (strTrim t) | none => b.title
  author := match u.author with | some a => (strTrim a) | none => b.author
  isbn := match u.isbn with | some i => (strTrim i) | none => b.isbn
  genre := match u.genre with | some g => g | none => b.genre
  publicationYear := match u.publicationYear with | some y => y | none => b.publicationYear
  pages := match u.pages with | some p => p | none => b.pages
  description := match u.description with | some d => some (strTrim d) | none => b.description
  available := match u.available with | some v => some v | none => b.available

/-- Response bodies the Book routes produce. -/
inductive BookBody where
  | errorMsg (error message : String)
  | validationFailed (details : List FieldError)
  | successMsgData (message : String) (data : Book)
  | successData (data : Book)
  | successMsg (message : String)
  | list (data : List Book)
deriving DecidableEq

/-- An HTTP response of a Book route. -/
structure BookResp where
  status : Nat
  body : BookBody
deriving DecidableEq

/-- Outcome of the storage insert: success, a duplicate-key rejection from the
uniqueness index (Mongo error code 11000, possible when a concurrent writer
slipped past the pre-check), or any other storage failure. -/
inductive SaveOutcome where
  | ok
  | dupKey
  | dbError
deriving DecidableEq

/-- The 409 response of the POST /books duplicate pre-check. -/
def bookConflictPre : BookResp :=
  ⟨409, .errorMsg "ISBN already exists" "A book with this ISBN already exists in the library"⟩

/-- The 409 response of the POST /books catch branch for error code 11000. -/
def bookConflictDup : BookResp :=
  ⟨409, .errorMsg "Duplicate entry" "A book with this ISBN already exists"⟩

/-- POST /books handler body (after validation passed): duplicate pre-check by
findOne on the isbn, then save. -/
def postBook (db : List Book) (b : BookPayload) (newId : String)
    (save : SaveOutcome) : BookResp × List Book :=
  match db.find? (fun x => x.isbn == bodyIsbn b) with
  | some _ => (bookConflictPre, db)
  | none =>
    match save with
    | .ok =>
      let book := mkBook newId b
      (⟨201, .successMsgData "Book created successfully" book⟩, db ++ [book])
    | .dupKey => (bookConflictDup, db)
    | .dbError =>
      (⟨500, .errorMsg "Failed to create book" "An error occurred while creating the book"⟩, db)

/-- POST /books route: validation middleware, then the handler. -/
def postBookRoute (db : List Book) (b : BookPayload) (currentYear : Int)
    (newId : String) (save : SaveOutcome) : BookResp × List Book :=
  match validateBookCreate b currentYear with
  | [] => postBook db b newId save
  | errs => (⟨400, .validationFailed errs⟩, db)

/-- GET /books/:id handler body (after validation passed). -/
def getBookById (db : List Book) (id : String) : BookResp :=
  match db.find? (fun x => x.id == id) with
  | none => ⟨404, .errorMsg "Book not found" "No book found with the provided ID"⟩
  | some b => ⟨200, .successData b⟩

/-- GET /books/:id route: the id must be a Mongo id, else 400 before the
handler runs. -/
def getBookByIdRoute (db : List Book) (id : String) : BookResp :=
  if isMongoId id then getBookById db id
  else ⟨400, .validationFailed [⟨"id", "Invalid book ID"⟩]⟩

/-- The PUT /books/:id duplicate pre-check: the isbn is being changed (the
sanitized body value is truthy) and a record with a different id already
holds it. -/
def putBookDupCheck (db : List Book) (id : String) (u : BookPayload) : Bool :=
  match u.isbn with
  | some s => (strTrim s) != "" && (db.find? (fun x => x.isbn == (strTrim s) && x.id != id)).isSome
  | none => false

/-- PUT /books/:id handler body (after validation passed): when a (truthy)
isbn is supplied, pre-check for a different record with the same isbn; then
findByIdAndUpdate with merge semantics.  The save parameter is the outcome of
the findByIdAndUpdate call: the catch branch translates the duplicate-key
code 11000 (the race on the uniqueness index) into a 409 with the Duplicate
entry body, and any other storage failure into a 500. -/
def putBook (db : List Book) (id : String) (u : BookPayload)
    (save : SaveOutcome) : BookResp × List Book :=
  if putBookDupCheck db id u then (bookConflictPre, db)
  else
    match save with
    | .ok =>
      match db.find? (fun x => x.id == id) with
      | none => (⟨404, .errorMsg "Book not found" "No book found with the provided ID"⟩, db)
      | some b =>
        (⟨200, .successMsgData "Book updated successfully" (applyBookUpdate b u)⟩,
         db.map (fun x => if x.id == id then applyBookUpdate x u else x))
    | .dupKey => (bookConflictDup, db)
    | .dbError =>
      (⟨500, .errorMsg "Failed to update book" "An error occurred while updating the book"⟩, db)

/-- PUT /books/:id route: validation middleware, then the handler. -/
def putBookRoute (db : List Book) (id : String) (u : BookPayload)
    (currentYear : Int) (save : SaveOutcome) : BookResp × List Book :=
  match validateBookUpdate id u currentYear with
  | [] => putBook db id u save
  | errs => (⟨400, .validationFailed errs⟩, db)

/-- DELETE /books/:id handler body (after validation passed):
findByIdAndDelete, 404 when nothing matched, else a bare success message. -/
def deleteBook (db : List Book) (id : String) : BookResp × List Book :=
  match db.find? (fun x => x.id == id) with
  | none => (⟨404, .errorMsg "Book not found" "No book found with the provided ID"⟩, db)
  | some _ =>
    (⟨200, .successMsg "Book deleted successfully"⟩, db.eraseP (fun x => x.id == id))

/-- DELETE /books/:id route. -/
def deleteBookRoute (db : List Book) (id : String) : BookResp × List Book :=
  if isMongoId id then deleteBook db id
  else (⟨400, .validationFailed [⟨"id", "Invalid book ID"⟩]⟩, db)

/-- Query string of GET /books: the two parameters the handler reads, plus
the unrecognized parameters, which the handler never reads. -/
structure BookQuery where
  genre : Option String := none
  available : Option String := none
  other : List (String × String) := []
deriving DecidableEq

/-- One truthy equality clause of a list filter: the parameter constrains the
field only when it is present and nonempty (JavaScript truthiness on the
query string value). -/
def truthyEq (q : Option String) (v : String) : Bool :=
  match q with
  | some s => if s == "" then true else v == s
  | none => true

/-- The filter GET /books builds: genre is added when truthy (present and
nonempty); available is added whenever present, as the boolean comparison of
the raw parameter with the string true. -/
def bookMatches (q : BookQuery) (b : Book) : Bool :=
  truthyEq q.genre b.genre &&
  (match q.available with
   | some a => b.available == some (a == "true")
   | none => true)

/-- The record set GET /books returns for a query. -/
def getBooksData (db : List Book) (q : BookQuery) : List Book :=
  db.filter (bookMatches q)

/-- GET /books route: its validation array is commented out in the source, so
the request is never rejected. -/
def getBooksRoute (db : List Book) (q : BookQuery) : BookResp :=
  ⟨200, .list (getBooksData db q)⟩

/-! ## Author resource -/

/-- A persisted Author document: the §3 field set plus the generated id. -/
structure Author where
  id : String
  fullname : String
  country : String
  gender : String
  birthdate : String
deriving DecidableEq

/-- A parsed JSON request body for the Author routes. -/
structure AuthorPayload where
  fullname : Option String := none
  country : Option String := none
  gender : Option String := none
  birthdate : Option String := none
deriving DecidableEq

/-- Validation chain of POST /authors, in source order. -/
def validateAuthorCreate (a : AuthorPayload) : List FieldError :=
  checkReqStr "fullname" a.fullname (lenBetween 1 50)
    "Full name is required and must be 1-50 characters" ++
  checkReqStr "country" a.country (lenBetween 1 50)
    "Country is required and must be 1-50 characters" ++
  checkReqStrRaw "gender" a.gender (genders.contains ·)
    "Gender must be one of the predefined categories" ++
  checkNotEmpty "birthdate" a.birthdate "Birth date is required"

/-- Validation chain of PUT /authors/:id, in source order.  fullname, country
and gender are optional, but the birthdate check has no optional marker: it is
required on update exactly as on create. -/
def validateAuthorUpdate (id : String) (a : AuthorPayload) : List FieldError :=
  (if isMongoId id then [] else [⟨"id", "Invalid author ID"⟩]) ++
  checkOptStr "fullname" a.fullname (lenBetween 1 50)
    "Full name must be 1-50 characters" ++
  checkOptStr "country" a.country (lenBetween 1 50)
    "Country must be 1-50 characters" ++
  checkOptStrRaw "gender" a.gender (genders.contains ·) "Invalid gender" ++
  checkNotEmpty "birthdate" a.birthdate "Birth date is required"

/-- The fullname the handler sees after the trim sanitizer ran. -/
def bodyFullname (a : AuthorPayload) : String := strTrim (a.fullname.getD "")

/-- new Author(req.body) with the generated id. -/
def mkAuthor (id : String) (a : AuthorPayload) : Author where
  id := id
  fullname := strTrim (a.fullname.getD "")
  country := strTrim (a.country.getD "")
  gender := a.gender.getD ""
  birthdate := a.birthdate.getD ""

/-- findByIdAndUpdate for an Author body: supplied fields take the sanitized
payload value (birthdate and gender have no trim sanitizer), unsupplied
fields keep their stored value. -/
def applyAuthorUpdate (a : Author) (u : AuthorPayload) : Author where
  id := a.id
  fullname := match u.fullname with | some f => (strTrim f) | none => a.fullname
  country := match u.country with | some c => (strTrim c) | none => a.country
  gender := match u.gender with | some g => g | none => a.gender
  birthdate := match u.birthdate with | some d => d | none => a.birthdate

/-- Response bodies the Author routes produce.  GET by id answers with the
bare record, GET all with the bare array. -/
inductive AuthorBody where
  | errorMsg (error message : String)
  | validationFailed (details : List FieldError)
  | successMsgData (message : String) (data : Author)
  | record (data : Author)
  | successMsg (message : String)
  | list (data : List Author)
deriving DecidableEq

/-- An HTTP response of an Author route. -/
structure AuthorResp where
  status : Nat
  body : AuthorBody
deriving DecidableEq

/-- The 409 response of the POST /authors duplicate pre-check. -/
def authorConflictPre : AuthorResp :=
  ⟨409, .errorMsg "Author already exists" "An author with this name already exists in the library"⟩

/-- The 409 response of the POST /authors catch branch for error code 11000. -/
def authorConflictDup : AuthorResp :=
  ⟨409, .errorMsg "Duplicate entry" "An author with this name already exists"⟩

/-- POST /authors handler body (after validation passed). -/
def postAuthor (db : List Author) (a : AuthorPayload) (newId : String)
    (save : SaveOutcome) : AuthorResp × List Author :=
  match db.find? (fun x => x.fullname == bodyFullname a) with
  | some _ => (authorConflictPre, db)
  | none =>
    match save with
    | .ok =>
      let author := mkAuthor newId a
      (⟨201, .successMsgData "Author created successfully" author⟩, db ++ [author])
    | .dupKey => (authorConflictDup, db)
    | .dbError =>
      (⟨500, .errorMsg "Failed to create author" "An error occurred while creating the author"⟩, db)

/-- POST /authors route. -/
def postAuthorRoute (db : List Author) (a : AuthorPayload) (newId : String)
    (save : SaveOutcome) : AuthorResp × List Author :=
  match validateAuthorCreate a with
  | [] => postAuthor db a newId save
  | errs => (⟨400, .validationFailed errs⟩, db)

/-- GET /authors/:id handler body (after validation passed). -/
def getAuthorById (db : List Author) (id : String) : AuthorResp :=
  match db.find? (fun x => x.id == id) with
  | none => ⟨404, .errorMsg "Author not found" "No author found with the provided ID"⟩
  | some a => ⟨200, .record a⟩

/-- GET /authors/:id route. -/
def getAuthorByIdRoute (db : List Author) (id : String) : AuthorResp :=
  if isMongoId id then getAuthorById db id
  else ⟨400, .validationFailed [⟨"id", "Invalid author ID"⟩]⟩

/-- The PUT /authors/:id duplicate pre-check: the fullname is being changed
(the sanitized body value is truthy) and a record with a different id already
holds it. -/
def putAuthorDupCheck (db : List Author) (id : String) (u : AuthorPayload) : Bool :=
  match u.fullname with
  | some s => (strTrim s) != "" && (db.find? (fun x => x.fullname == (strTrim s) && x.id != id)).isSome
  | none => false

/-- PUT /authors/:id handler body (after validation passed).  The save
parameter is the outcome of the findByIdAndUpdate call: the catch branch
translates the duplicate-key code 11000 into a 409 with the Duplicate entry
body, and any other storage failure into a 500. -/
def putAuthor (db : List Author) (id : String) (u : AuthorPayload)
    (save : SaveOutcome) : AuthorResp × List Author :=
  if putAuthorDupCheck db id u then (authorConflictPre, db)
  else
    match save with
    | .ok =>
      match db.find? (fun x => x.id == id) with
      | none => (⟨404, .errorMsg "Author not found" "No author found with the provided ID"⟩, db)
      | some a =>
        (⟨200, .successMsgData "Author updated successfully" (applyAuthorUpdate a u)⟩,
         db.map (fun x => if x.id == id then applyAuthorUpdate x u else x))
    | .dupKey => (authorConflictDup, db)
    | .dbError =>
      (⟨500, .errorMsg "Failed to update author" "An error occurred while updating the author"⟩, db)

/-- PUT /authors/:id route. -/
def putAuthorRoute (db : List Author) (id : String) (u : AuthorPayload)
    (save : SaveOutcome) : AuthorResp × List Author :=
  match validateAuthorUpdate id u with
  | [] => putAuthor db id u save
  | errs => (⟨400, .validationFailed errs⟩, db)

/-- DELETE /authors/:id handler body (after validation passed). -/
def deleteAuthor (db : List Author) (id : String) : AuthorResp × List Author :=
  match db.find? (fun x => x.id == id) with
  | none => (⟨404, .errorMsg "Author not found" "No author found with the provided ID"⟩, db)
  | some _ =>
    (⟨200, .successMsg "Author deleted successfully"⟩, db.eraseP (fun x => x.id == id))

/-- DELETE /authors/:id route. -/
def deleteAuthorRoute (db : List Author) (id : String) : AuthorResp × List Author :=
  if isMongoId id then deleteAuthor db id
  else (⟨400, .validationFailed [⟨"id", "Invalid author ID"⟩]⟩, db)

/-- Query string of GET /authors: the four parameters the handler reads, plus
the unrecognized parameters, which the handler never reads. -/
structure AuthorQuery where
  fullname : Option String := none
  country : Option String := none
  gender : Option String := none
  birthdate : Option String := none
  other : List (String × String) := []
deriving DecidableEq

/-- The filter GET /authors builds: each parameter is added when truthy. -/
def authorMatches (q : AuthorQuery) (a : Author) : Bool :=
  truthyEq q.fullname a.fullname && truthyEq q.country a.country &&
  truthyEq q.gender a.gender && truthyEq q.birthdate a.birthdate

/-- The record set GET /authors returns for a query. -/
def getAuthorsData (db : List Author) (q : AuthorQuery) : List Author :=
  db.filter (authorMatches q)

/-- GET /authors route: its middleware chain registers no validations, so the
request is never rejected. -/
def getAuthorsRoute (db : List Author) (q : AuthorQuery) : AuthorResp :=
  ⟨200, .list (getAuthorsData db q)⟩

/-! ## Helper lemmas about the list model of the store -/

/-- A member satisfying the predicate makes find? succeed. -/
theorem find?_mem_isSome {α : Type} (p : α → Bool) (l : List α) (a : α)
    (ha : a ∈ l) (hp : p a = true) : ∃ b, l.find? p = some b := by
  have h : (l.find? p).isSome := List.find?_isSome.mpr ⟨a, ha, hp⟩
  exact Option.isSome_iff_exists.mp h

/-- find? over an append whose first part has no match. -/
theorem find?_append_none {α : Type} (p : α → Bool) (l m : List α)
    (h : l.find? p = none) : (l ++ m).find? p = m.find? p := by
  rw [List.find?_append, h, Option.none_or]

/-- A map that fixes every member of the list is the identity on it. -/
theorem map_eq_self_of_fix {α : Type} (l : List α) (f : α → α)
    (h : ∀ x ∈ l, f x = x) : l.map f = l := by
  induction l with
  | nil => rfl
  | cons a t ih =>
    rw [List.map_cons, h a (List.mem_cons_self a t),
      ih (fun x hx => h x (List.mem_cons_of_mem a hx))]

/-- Updating, at a key that is held by a record the update fixes, a store
whose keys are pairwise distinct, changes nothing. -/
theorem map_if_id_of_nodup {α : Type} (idOf : α → String) (f : α → α) (i : String) :
    ∀ (l : List α) (b : α), (l.map idOf).Nodup →
      l.find? (fun x => idOf x == i) = some b → f b = b →
      l.map (fun x => if idOf x == i then f x else x) = l := by
  intro l
  induction l with
  | nil => intro b _ hf _; simp at hf
  | cons a t ih =>
    intro b hnd hf hfix
    rw [List.map_cons] at hnd
    have hnd1 : idOf a ∉ t.map idOf := (List.nodup_cons.mp hnd).1
    have hnd2 : (t.map idOf).Nodup := (List.nodup_cons.mp hnd).2
    by_cases ha : (idOf a == i) = true
    · rw [List.find?_cons_of_pos (p := fun x => idOf x == i) t ha] at hf
      have hab : a = b := by injection hf
      subst hab
      rw [List.map_cons, if_pos ha, hfix]
      have hrest : ∀ x ∈ t, (if idOf x == i then f x else x) = x := by
        intro x hx
        have hne : ¬ ((idOf x == i) = true) := by
          intro hxe
          apply hnd1
          have h1 : idOf x = i := eq_of_beq hxe
          have h2 : idOf a = i := eq_of_beq ha
          rw [h2, ← h1]
          exact List.mem_map_of_mem idOf hx
        rw [if_neg hne]
      rw [map_eq_self_of_fix t _ hrest]
    · rw [List.find?_cons_of_neg (p := fun x => idOf x == i) t ha] at hf
      rw [List.map_cons, if_neg ha, ih b hnd2 hf hfix]

/-- After erasing the record holding a key from a store whose keys are
pairwise distinct, no record holds the key. -/
theorem find?_eraseP_none {α : Type} (idOf : α → String) (i : String) :
    ∀ (l : List α), (l.map idOf).Nodup →
      (l.eraseP (fun x => idOf x == i)).find? (fun x => idOf x == i) = none := by
  intro l
  induction l with
  | nil => intro _; rfl
  | cons a t ih =>
    intro hnd
    rw [List.map_cons] at hnd
    have hnd1 : idOf a ∉ t.map idOf := (List.nodup_cons.mp hnd).1
    have hnd2 : (t.map idOf).Nodup := (List.nodup_cons.mp hnd).2
    by_cases ha : (idOf a == i) = true
    · rw [List.eraseP_cons_of_pos (p := fun x => idOf x == i) ha]
      apply List.find?_eq_none.mpr
      intro x hx hxe
      apply hnd1
      have h1 : idOf x = i := eq_of_beq hxe
      have h2 : idOf a = i := eq_of_beq ha
      rw [h2, ← h1]
      exact List.mem_map_of_mem idOf hx
    · rw [List.eraseP_cons_of_neg (p := fun x => idOf x == i) ha,
        List.find?_cons_of_neg (p := fun x => idOf x == i) _ ha]
      exact ih hnd2

/-! ## Claims -/

/-- Claim C1: a Create request (POST on books or on authors) whose
uniqueness-constraint field value (isbn for a Book, fullname for an Author)
already exists in the collection answers with the 409 Conflict of the
duplicate pre-check and performs no write: the collection after the request
is the collection before it. -/
theorem C1_create_duplicate_conflict_no_write :
    (∀ (db : List Book) (b : BookPayload) (year : Int) (newId : String) (save : SaveOutcome),
      validateBookCreate b year = [] →
      (∃ x ∈ db, x.isbn = bodyIsbn b) →
      postBookRoute db b year newId save = (bookConflictPre, db)) ∧
    (∀ (db : List Author) (a : AuthorPayload) (newId : String) (save : SaveOutcome),
      validateAuthorCreate a = [] →
      (∃ x ∈ db, x.fullname = bodyFullname a) →
      postAuthorRoute db a newId save = (authorConflictPre, db)) := by
  constructor
  · rintro db b year newId save hval ⟨x, hx, hisbn⟩
    obtain ⟨c, hc⟩ :=
      find?_mem_isSome (fun y => y.isbn == bodyIsbn b) db x hx (by simp [hisbn])
    simp [postBookRoute, hval, postBook, hc]
  · rintro db a newId save hval ⟨x, hx, hname⟩
    obtain ⟨c, hc⟩ :=
      find?_mem_isSome (fun y => y.fullname == bodyFullname a) db x hx (by simp [hname])
    simp [postAuthorRoute, hval, postAuthor, hc]

/-- Witness for C1: a concrete duplicate Create on each resource. -/
theorem C1_witness :
    postBookRoute
        [⟨"0123456789abcdef01234567", "Dune", "F. Herbert", "9780441013593",
          "Fantasy", 1965, 412, none, none⟩]
        { title := some "Dune", author := some "F. Herbert", isbn := some "9780441013593",
          genre := some "Fantasy", publicationYear := some 1965, pages := some 412 }
        2025 "89abcdef0123456789abcdef" .ok
      = (bookConflictPre,
         [⟨"0123456789abcdef01234567", "Dune", "F. Herbert", "9780441013593",
           "Fantasy", 1965, 412, none, none⟩]) ∧
    postAuthorRoute
        [⟨"0123456789abcdef01234567", "Jane Doe", "Kenya", "Female", "1960-01-01"⟩]
        { fullname := some "Jane Doe", country := some "Ghana", gender := some "Female",
          birthdate := some "1970-05-05" }
        "89abcdef0123456789abcdef" .ok
      = (authorConflictPre,
         [⟨"0123456789abcdef01234567", "Jane Doe", "Kenya", "Female", "1960-01-01"⟩]) := by
  exact ⟨C1_create_duplicate_conflict_no_write.1 _ _ _ _ _ (by decide) (by decide),
         C1_create_duplicate_conflict_no_write.2 _ _ _ _ (by decide) (by decide)⟩

/-- Claim C3 counterexample: at a concrete Create where the storage insert
raises the duplicate-key code (the race that slips past the pre-check), the
handler answers with the 409 status, like the pre-check does, but the full
response differs from the one the pre-check produces on the same payload:
the bodies are not the same. -/
theorem C3_counterexample :
    (postBookRoute []
        { title := some "Dune", author := some "F. Herbert", isbn := some "9780441013593",
          genre := some "Fantasy", publicationYear := some 1965, pages := some 412 }
        2025 "89abcdef0123456789abcdef" .dupKey).1.status = 409 ∧
    (postBookRoute
        [⟨"0123456789abcdef01234567", "Dune", "F. Herbert", "9780441013593",
          "Fantasy", 1965, 412, none, none⟩]
        { title := some "Dune", author := some "F. Herbert", isbn := some "9780441013593",
          genre := some "Fantasy", publicationYear := some 1965, pages := some 412 }
        2025 "89abcdef0123456789abcdef" .ok).1.status = 409 ∧
    (postBookRoute []
        { title := some "Dune", author := some "F. Herbert", isbn := some "9780441013593",
          genre := some "Fantasy", publicationYear := some 1965, pages := some 412 }
        2025 "89abcdef0123456789abcdef" .dupKey).1 ≠
    (postBookRoute
        [⟨"0123456789abcdef01234567", "Dune", "F. Herbert", "9780441013593",
          "Fantasy", 1965, 412, none, none⟩]
        { title := some "Dune", author := some "F. Herbert", isbn := some "9780441013593",
          genre := some "Fantasy", publicationYear := some 1965, pages := some 412 }
        2025 "89abcdef0123456789abcdef" .ok).1 := by
  decide

/-- Claim C3 amended: when the storage layer raises the duplicate-key code
11000 on insert or on update, after the pre-check passed, the handler
translates it into a 409 Conflict with the same status as the pre-check
Conflict but a different response body (error Duplicate entry with a shorter
message), and performs no write; this holds for the Create and the Update
handlers of both resources. -/
theorem C3_amended_storage_conflict_translation :
    (∀ (db : List Book) (b : BookPayload) (year : Int) (newId : String),
      validateBookCreate b year = [] →
      db.find? (fun x => x.isbn == bodyIsbn b) = none →
      postBookRoute db b year newId .dupKey = (bookConflictDup, db)) ∧
    (∀ (db : List Book) (id : String) (u : BookPayload) (year : Int),
      validateBookUpdate id u year = [] →
      putBookDupCheck db id u = false →
      putBookRoute db id u year .dupKey = (bookConflictDup, db)) ∧
    bookConflictDup.status = bookConflictPre.status ∧
    bookConflictDup ≠ bookConflictPre ∧
    (∀ (db : List Author) (a : AuthorPayload) (newId : String),
      validateAuthorCreate a = [] →
      db.find? (fun x => x.fullname == bodyFullname a) = none →
      postAuthorRoute db a newId .dupKey = (authorConflictDup, db)) ∧
    (∀ (db : List Author) (id : String) (u : AuthorPayload),
      validateAuthorUpdate id u = [] →
      putAuthorDupCheck db id u = false →
      putAuthorRoute db id u .dupKey = (authorConflictDup, db)) ∧
    authorConflictDup.status = authorConflictPre.status ∧
    authorConflictDup ≠ authorConflictPre := by
  refine ⟨?_, ?_, by decide, by decide, ?_, ?_, by decide, by decide⟩
  · intro db b year newId hval hf
    simp [postBookRoute, hval, postBook, hf]
  · intro db id u year hval hdup
    simp [putBookRoute, hval, putBook, hdup]
  · intro db a newId hval hf
    simp [postAuthorRoute, hval, postAuthor, hf]
  · intro db id u hval hdup
    simp [putAuthorRoute, hval, putAuthor, hdup]

/-- Witness for the amended C3: the storage duplicate-key outcome at a
concrete Create and a concrete Update, on each resource. -/
theorem C3_witness :
    postBookRoute []
        { title := some "Dune", author := some "F. Herbert", isbn := some "9780441013593",
          genre := some "Fantasy", publicationYear := some 1965, pages := some 412 }
        2025 "89abcdef0123456789abcdef" .dupKey = (bookConflictDup, []) ∧
    putBookRoute
        [⟨"0123456789abcdef01234567", "Dune", "F. Herbert", "9780441013593",
          "Fantasy", 1965, 412, none, none⟩]
        "0123456789abcdef01234567" { isbn := some "9780141439587" } 2025 .dupKey
      = (bookConflictDup,
         [⟨"0123456789abcdef01234567", "Dune", "F. Herbert", "9780441013593",
           "Fantasy", 1965, 412, none, none⟩]) ∧
    postAuthorRoute []
        { fullname := some "Jane Doe", country := some "Ghana", gender := some "Female",
          birthdate := some "1970-05-05" }
        "89abcdef0123456789abcdef" .dupKey = (authorConflictDup, []) ∧
    putAuthorRoute
        [⟨"0123456789abcdef01234567", "Jane Doe", "Kenya", "Female", "1960-01-01"⟩]
        "0123456789abcdef01234567"
        { fullname := some "Janet Poe", birthdate := some "1960-01-01" } .dupKey
      = (authorConflictDup,
         [⟨"0123456789abcdef01234567", "Jane Doe", "Kenya", "Female", "1960-01-01"⟩]) := by
  exact ⟨C3_amended_storage_conflict_translation.1 _ _ _ _ (by decide) (by decide),
         C3_amended_storage_conflict_translation.2.1 _ _ _ _ (by decide) (by decide),
         C3_amended_storage_conflict_translation.2.2.2.2.1 _ _ _ (by decide) (by decide),
         C3_amended_storage_conflict_translation.2.2.2.2.2.1 _ _ _ (by decide) (by decide)⟩

/-- Claim C5: an Update whose payload changes the uniqueness-constraint field
to a value some other record (a different id) already holds answers 409
Conflict, and the collection, hence the record addressed by the id, is
unchanged. -/
theorem C5_update_duplicate_conflict :
    (∀ (db : List Book) (id : String) (u : BookPayload) (year : Int) (save : SaveOutcome),
      validateBookUpdate id u year = [] →
      (∃ s, u.isbn = some s ∧ strTrim s ≠ "" ∧
        ∃ x ∈ db, x.isbn = strTrim s ∧ x.id ≠ id) →
      putBookRoute db id u year save = (bookConflictPre, db)) ∧
    (∀ (db : List Author) (id : String) (u : AuthorPayload) (save : SaveOutcome),
      validateAuthorUpdate id u = [] →
      (∃ s, u.fullname = some s ∧ strTrim s ≠ "" ∧
        ∃ x ∈ db, x.fullname = strTrim s ∧ x.id ≠ id) →
      putAuthorRoute db id u save = (authorConflictPre, db)) := by
  constructor
  · rintro db id u year save hval ⟨s, hs, hne, x, hx, hisbn, hxid⟩
    obtain ⟨c, hc⟩ :=
      find?_mem_isSome (fun y => y.isbn == strTrim s && y.id != id) db x hx
        (by simp [hisbn, hxid])
    simp [putBookRoute, hval, putBook, putBookDupCheck, hs, hne, hc]
  · rintro db id u save hval ⟨s, hs, hne, x, hx, hname, hxid⟩
    obtain ⟨c, hc⟩ :=
      find?_mem_isSome (fun y => y.fullname == strTrim s && y.id != id) db x hx
        (by simp [hname, hxid])
    simp [putAuthorRoute, hval, putAuthor, putAuthorDupCheck, hs, hne, hc]

/-- Witness for C5: a concrete Update moving the unique field onto the value
of another record, on each resource. -/
theorem C5_witness :
    putBookRoute
        [⟨"0123456789abcdef01234567", "Dune", "F. Herbert", "9780441013593",
          "Fantasy", 1965, 412, none, none⟩,
         ⟨"89abcdef0123456789abcdef", "Emma", "J. Austen", "9780141439587",
          "History", 1815, 474, none, none⟩]
        "89abcdef0123456789abcdef" { isbn := some "9780441013593" } 2025 .ok
      = (bookConflictPre,
         [⟨"0123456789abcdef01234567", "Dune", "F. Herbert", "9780441013593",
           "Fantasy", 1965, 412, none, none⟩,
          ⟨"89abcdef0123456789abcdef", "Emma", "J. Austen", "9780141439587",
           "History", 1815, 474, none, none⟩]) ∧
    putAuthorRoute
        [⟨"0123456789abcdef01234567", "Jane Doe", "Kenya", "Female", "1960-01-01"⟩,
         ⟨"89abcdef0123456789abcdef", "John Roe", "Ghana", "Male", "1955-02-02"⟩]
        "89abcdef0123456789abcdef"
        { fullname := some "Jane Doe", birthdate := some "1955-02-02" } .ok
      = (authorConflictPre,
         [⟨"0123456789abcdef01234567", "Jane Doe", "Kenya", "Female", "1960-01-01"⟩,
          ⟨"89abcdef0123456789abcdef", "John Roe", "Ghana", "Male", "1955-02-02"⟩]) := by
  refine ⟨C5_update_duplicate_conflict.1 _ _ _ _ _ (by decide) ?_,
          C5_update_duplicate_conflict.2 _ _ _ _ (by decide) ?_⟩
  · exact ⟨"9780441013593", rfl, by decide, by decide⟩
  · exact ⟨"Jane Doe", rfl, by decide, by decide⟩

/-- Claim C6: every by-id operation given a malformed identifier (not a Mongo
id) answers 400, leaves the collection unchanged, and produces a response
that does not depend on the collection: persistence is never consulted. -/
theorem C6_malformed_id_rejected :
    ∀ (id : String), isMongoId id = false →
    ∀ (dbB dbB2 : List Book) (dbA dbA2 : List Author)
      (u : BookPayload) (v : AuthorPayload) (year : Int) (sv sv2 : SaveOutcome),
      (getBookByIdRoute dbB id).status = 400 ∧
      getBookByIdRoute dbB id = getBookByIdRoute dbB2 id ∧
      (putBookRoute dbB id u year sv).1.status = 400 ∧
      (putBookRoute dbB id u year sv).2 = dbB ∧
      (putBookRoute dbB id u year sv).1 = (putBookRoute dbB2 id u year sv2).1 ∧
      (deleteBookRoute dbB id).1.status = 400 ∧
      (deleteBookRoute dbB id).2 = dbB ∧
      (deleteBookRoute dbB id).1 = (deleteBookRoute dbB2 id).1 ∧
      (getAuthorByIdRoute dbA id).status = 400 ∧
      getAuthorByIdRoute dbA id = getAuthorByIdRoute dbA2 id ∧
      (putAuthorRoute dbA id v sv).1.status = 400 ∧
      (putAuthorRoute dbA id v sv).2 = dbA ∧
      (putAuthorRoute dbA id v sv).1 = (putAuthorRoute dbA2 id v sv2).1 ∧
      (deleteAuthorRoute dbA id).1.status = 400 ∧
      (deleteAuthorRoute dbA id).2 = dbA ∧
      (deleteAuthorRoute dbA id).1 = (deleteAuthorRoute dbA2 id).1 := by
  intro id hid dbB dbB2 dbA dbA2 u v year sv sv2
  simp [getBookByIdRoute, deleteBookRoute, getAuthorByIdRoute, deleteAuthorRoute,
    putBookRoute, putAuthorRoute, validateBookUpdate, validateAuthorUpdate, hid]

/-- Witness for C6: the malformed identifier not-a-mongo-id against two
different collection states of each resource. -/
theorem C6_witness :
    (getBookByIdRoute
        [⟨"0123456789abcdef01234567", "Dune", "F. Herbert", "9780441013593",
          "Fantasy", 1965, 412, none, none⟩] "not-a-mongo-id").status = 400 ∧
    (deleteAuthorRoute
        [⟨"0123456789abcdef01234567", "Jane Doe", "Kenya", "Female", "1960-01-01"⟩]
        "not-a-mongo-id").1.status = 400 := by
  have h := C6_malformed_id_rejected "not-a-mongo-id" (by decide)
    [⟨"0123456789abcdef01234567", "Dune", "F. Herbert", "9780441013593",
      "Fantasy", 1965, 412, none, none⟩] []
    [⟨"0123456789abcdef01234567", "Jane Doe", "Kenya", "Female", "1960-01-01"⟩] []
    {} {} 2025 .ok .dbError
  exact ⟨h.1, h.2.2.2.2.2.2.2.2.2.2.2.2.2.1⟩

/-- Claim C8: Delete on an id with no record answers 404 and writes nothing; a
successful Delete answers a success confirmation that carries no record
payload; and, on a collection with pairwise distinct ids and a well-formed
id, any Delete followed by Get-by-id on the same id answers 404. -/
theorem C8_delete_semantics :
    (∀ (db : List Book) (id : String), isMongoId id = true →
      (db.map Book.id).Nodup →
      (db.find? (fun x => x.id == id) = none →
        deleteBookRoute db id
          = (⟨404, .errorMsg "Book not found" "No book found with the provided ID"⟩, db)) ∧
      (∀ b, db.find? (fun x => x.id == id) = some b →
        (deleteBookRoute db id).1 = ⟨200, .successMsg "Book deleted successfully"⟩) ∧
      (getBookByIdRoute (deleteBookRoute db id).2 id).status = 404) ∧
    (∀ (db : List Author) (id : String), isMongoId id = true →
      (db.map Author.id).Nodup →
      (db.find? (fun x => x.id == id) = none →
        deleteAuthorRoute db id
          = (⟨404, .errorMsg "Author not found" "No author found with the provided ID"⟩, db)) ∧
      (∀ a, db.find? (fun x => x.id == id) = some a →
        (deleteAuthorRoute db id).1 = ⟨200, .successMsg "Author deleted successfully"⟩) ∧
      (getAuthorByIdRoute (deleteAuthorRoute db id).2 id).status = 404) := by
  constructor
  · intro db id hid hnd
    refine ⟨?_, ?_, ?_⟩
    · intro hf; simp [deleteBookRoute, hid, deleteBook, hf]
    · intro b hf; simp [deleteBookRoute, hid, deleteBook, hf]
    · cases hf : db.find? (fun x => x.id == id) with
      | none =>
        have hf2 : (deleteBookRoute db id).2 = db := by
          simp [deleteBookRoute, hid, deleteBook, hf]
        rw [hf2]
        simp [getBookByIdRoute, hid, getBookById, hf]
      | some b =>
        have hf2 : (deleteBookRoute db id).2 = db.eraseP (fun x => x.id == id) := by
          simp [deleteBookRoute, hid, deleteBook, hf]
        rw [hf2]
        have hnone := find?_eraseP_none Book.id id db hnd
        simp [getBookByIdRoute, hid, getBookById, hnone]
  · intro db id hid hnd
    refine ⟨?_, ?_, ?_⟩
    · intro hf; simp [deleteAuthorRoute, hid, deleteAuthor, hf]
    · intro a hf; simp [deleteAuthorRoute, hid, deleteAuthor, hf]
    · cases hf : db.find? (fun x => x.id == id) with
      | none =>
        have hf2 : (deleteAuthorRoute db id).2 = db := by
          simp [deleteAuthorRoute, hid, deleteAuthor, hf]
        rw [hf2]
        simp [getAuthorByIdRoute, hid, getAuthorById, hf]
      | some a =>
        have hf2 : (deleteAuthorRoute db id).2 = db.eraseP (fun x => x.id == id) := by
          simp [deleteAuthorRoute, hid, deleteAuthor, hf]
        rw [hf2]
        have hnone := find?_eraseP_none Author.id id db hnd
        simp [getAuthorByIdRoute, hid, getAuthorById, hnone]

/-- Witness for C8: a concrete Delete of an existing Book record followed by
Get-by-id, and a Delete of a missing Author id. -/
theorem C8_witness :
    (getBookByIdRoute
      (deleteBookRoute
        [⟨"0123456789abcdef01234567", "Dune", "F. Herbert", "9780441013593",
          "Fantasy", 1965, 412, none, none⟩] "0123456789abcdef01234567").2
      "0123456789abcdef01234567").status = 404 ∧
    deleteAuthorRoute
        [⟨"0123456789abcdef01234567", "Jane Doe", "Kenya", "Female", "1960-01-01"⟩]
        "89abcdef0123456789abcdef"
      = (⟨404, .errorMsg "Author not found" "No author found with the provided ID"⟩,
         [⟨"0123456789abcdef01234567", "Jane Doe", "Kenya", "Female", "1960-01-01"⟩]) := by
  exact ⟨(C8_delete_semantics.1 _ _ (by decide) (by decide)).2.2,
         (C8_delete_semantics.2 _ _ (by decide) (by decide)).1 (by decide)⟩

/-- Claim C9: PUT on authors rejects with a 400 validation failure every
request whose body lacks a nonempty birthdate, even a payload touching only
other fields: the collection is unchanged and the response does not depend on
it, so no persistence call is reflected in the outcome. -/
theorem C9_put_author_requires_birthdate :
    ∀ (db db2 : List Author) (id : String) (u : AuthorPayload) (sv sv2 : SaveOutcome),
      (u.birthdate = none ∨ u.birthdate = some "") →
      (putAuthorRoute db id u sv).1.status = 400 ∧
      (putAuthorRoute db id u sv).2 = db ∧
      (putAuthorRoute db id u sv).1 = (putAuthorRoute db2 id u sv2).1 := by
  intro db db2 id u sv sv2 hbd
  have hne : checkNotEmpty "birthdate" u.birthdate "Birth date is required"
      = [⟨"birthdate", "Birth date is required"⟩] := by
    rcases hbd with h | h <;> simp [checkNotEmpty, h]
  cases hv : validateAuthorUpdate id u with
  | nil =>
    exfalso
    rw [validateAuthorUpdate] at hv
    have h1 := (List.append_eq_nil.mp hv).2
    rw [hne] at h1
    exact List.cons_ne_nil _ _ h1
  | cons e es =>
    have hv2 : validateAuthorUpdate id u ≠ [] := by rw [hv]; exact List.cons_ne_nil _ _
    simp [putAuthorRoute, hv]

/-- Witness for C9: a partial Author update that supplies only a new country
and no birthdate. -/
theorem C9_witness :
    (putAuthorRoute
      [⟨"0123456789abcdef01234567", "Jane Doe", "Kenya", "Female", "1960-01-01"⟩]
      "0123456789abcdef01234567" { country := some "Ghana" } .ok).1.status = 400 ∧
    (putAuthorRoute
      [⟨"0123456789abcdef01234567", "Jane Doe", "Kenya", "Female", "1960-01-01"⟩]
      "0123456789abcdef01234567" { country := some "Ghana" } .ok).2
      = [⟨"0123456789abcdef01234567", "Jane Doe", "Kenya", "Female", "1960-01-01"⟩] := by
  have h := C9_put_author_requires_birthdate
    [⟨"0123456789abcdef01234567", "Jane Doe", "Kenya", "Female", "1960-01-01"⟩] []
    "0123456789abcdef01234567" { country := some "Ghana" } .ok .dupKey (Or.inl rfl)
  exact ⟨h.1, h.2.1⟩

/-- Claim C10: in the GET books list, a present available parameter makes the
filter compare the stored boolean with the result of the equality test
against the string true: only the exact string true selects available-true
records, and any other present value selects available-false records instead
of being rejected. -/
theorem C10_available_string_comparison :
    ∀ (db : List Book) (g : Option String) (s : String) (o : List (String × String)),
      (getBooksRoute db ⟨g, some s, o⟩).status = 200 ∧
      (s = "true" → getBooksData db ⟨g, some s, o⟩
          = db.filter (fun b => truthyEq g b.genre && b.available == some true)) ∧
      (s ≠ "true" → getBooksData db ⟨g, some s, o⟩
          = db.filter (fun b => truthyEq g b.genre && b.available == some false)) := by
  intro db g s o
  refine ⟨rfl, ?_, ?_⟩
  · intro hs; subst hs
    unfold getBooksData
    congr 1
  · intro hs
    have hfalse : (s == "true") = false := by
      simp only [beq_eq_false_iff_ne, ne_eq]; exact hs
    unfold getBooksData
    congr 1
    funext b
    simp [bookMatches, hfalse]

/-- Witness for C10: the parameter value True (capitalised) selects the
available-false records and is not rejected. -/
theorem C10_witness :
    (getBooksRoute
      [⟨"0123456789abcdef01234567", "Dune", "F. Herbert", "9780441013593",
        "Fantasy", 1965, 412, none, some true⟩,
       ⟨"89abcdef0123456789abcdef", "Emma", "J. Austen", "9780141439587",
        "History", 1815, 474, none, some false⟩]
      ⟨none, some "True", []⟩).status = 200 ∧
    getBooksData
      [⟨"0123456789abcdef01234567", "Dune", "F. Herbert", "9780441013593",
        "Fantasy", 1965, 412, none, some true⟩,
       ⟨"89abcdef0123456789abcdef", "Emma", "J. Austen", "9780141439587",
        "History", 1815, 474, none, some false⟩]
      ⟨none, some "True", []⟩
      = [⟨"89abcdef0123456789abcdef", "Emma", "J. Austen", "9780141439587",
          "History", 1815, 474, none, some false⟩] := by
  have h := C10_available_string_comparison
    [⟨"0123456789abcdef01234567", "Dune", "F. Herbert", "9780441013593",
      "Fantasy", 1965, 412, none, some true⟩,
     ⟨"89abcdef0123456789abcdef", "Emma", "J. Austen", "9780141439587",
      "History", 1815, 474, none, some false⟩]
    none "True" []
  refine ⟨h.1, ?_⟩
  rw [h.2.2 (by decide)]
  decide

/-- Characterisation of a truthy equality clause of the list filters. -/
theorem truthyEq_iff (q : Option String) (v : String) :
    truthyEq q v = true ↔ ∀ s, q = some s → s ≠ "" → v = s := by
  cases q with
  | none => simp [truthyEq]
  | some s =>
    by_cases hs : s = ""
    · subst hs; simp [truthyEq]
    · have hbe : (s == "") = false := by simp [hs]
      simp [truthyEq, hbe, hs]

/-- Claim C7: each List endpoint builds an equality filter from only its
whitelisted query parameters (genre and available for books; fullname,
country, gender and birthdate for authors), ignores unrecognized parameters
without rejecting the request, and returns exactly the matching records;
with no recognized parameter supplied the whole collection is returned. -/
theorem C7_list_whitelist_filter :
    (∀ (db : List Book) (q : BookQuery),
      (getBooksRoute db q).status = 200 ∧
      getBooksRoute db q = getBooksRoute db ⟨q.genre, q.available, []⟩ ∧
      (q.genre = none → q.available = none → getBooksData db q = db) ∧
      (∀ b, b ∈ getBooksData db q ↔ b ∈ db ∧
        (∀ s, q.genre = some s → s ≠ "" → b.genre = s) ∧
        (∀ s, q.available = some s → b.available = some (s == "true")))) ∧
    (∀ (db : List Author) (q : AuthorQuery),
      (getAuthorsRoute db q).status = 200 ∧
      getAuthorsRoute db q
        = getAuthorsRoute db ⟨q.fullname, q.country, q.gender, q.birthdate, []⟩ ∧
      (q.fullname = none → q.country = none → q.gender = none → q.birthdate = none →
        getAuthorsData db q = db) ∧
      (∀ a, a ∈ getAuthorsData db q ↔ a ∈ db ∧
        (∀ s, q.fullname = some s → s ≠ "" → a.fullname = s) ∧
        (∀ s, q.country = some s → s ≠ "" → a.country = s) ∧
        (∀ s, q.gender = some s → s ≠ "" → a.gender = s) ∧
        (∀ s, q.birthdate = some s → s ≠ "" → a.birthdate = s))) := by
  constructor
  · intro db q
    refine ⟨rfl, rfl, ?_, ?_⟩
    · intro hg ha
      simp [getBooksData, bookMatches, hg, ha, truthyEq]
    · intro b
      simp only [getBooksData, List.mem_filter]
      constructor
      · rintro ⟨hm, hmatch⟩
        simp only [bookMatches, Bool.and_eq_true] at hmatch
        refine ⟨hm, (truthyEq_iff _ _).mp hmatch.1, ?_⟩
        intro s hs
        have h2 := hmatch.2
        rw [hs] at h2
        simpa using h2
      · rintro ⟨hm, hg, ha⟩
        refine ⟨hm, ?_⟩
        simp only [bookMatches, Bool.and_eq_true]
        refine ⟨(truthyEq_iff _ _).mpr hg, ?_⟩
        cases hq : q.available with
        | none => rfl
        | some s => simp [ha s hq]
  · intro db q
    refine ⟨rfl, rfl, ?_, ?_⟩
    · intro h1 h2 h3 h4
      simp [getAuthorsData, authorMatches, h1, h2, h3, h4, truthyEq]
    · intro a
      simp only [getAuthorsData, List.mem_filter]
      simp only [authorMatches, Bool.and_eq_true]
      constructor
      · rintro ⟨hm, ⟨⟨⟨h1, h2⟩, h3⟩, h4⟩⟩
        exact ⟨hm, (truthyEq_iff _ _).mp h1, (truthyEq_iff _ _).mp h2,
          (truthyEq_iff _ _).mp h3, (truthyEq_iff _ _).mp h4⟩
      · rintro ⟨hm, h1, h2, h3, h4⟩
        exact ⟨hm, ⟨⟨⟨(truthyEq_iff _ _).mpr h1, (truthyEq_iff _ _).mpr h2⟩,
          (truthyEq_iff _ _).mpr h3⟩, (truthyEq_iff _ _).mpr h4⟩⟩

/-- Witness for C7: a request with only an unrecognized parameter returns the
whole collection with status 200, on each resource. -/
theorem C7_witness :
    (getBooksRoute
      [⟨"0123456789abcdef01234567", "Dune", "F. Herbert", "9780441013593",
        "Fantasy", 1965, 412, none, none⟩]
      ⟨none, none, [("sort", "asc")]⟩).status = 200 ∧
    getBooksData
      [⟨"0123456789abcdef01234567", "Dune", "F. Herbert", "9780441013593",
        "Fantasy", 1965, 412, none, none⟩]
      ⟨none, none, [("sort", "asc")]⟩
      = [⟨"0123456789abcdef01234567", "Dune", "F. Herbert", "9780441013593",
          "Fantasy", 1965, 412, none, none⟩] ∧
    getAuthorsData
      [⟨"0123456789abcdef01234567", "Jane Doe", "Kenya", "Female", "1960-01-01"⟩]
      ⟨none, none, none, none, [("page", "2")]⟩
      = [⟨"0123456789abcdef01234567", "Jane Doe", "Kenya", "Female", "1960-01-01"⟩] := by
  have hb := C7_list_whitelist_filter.1
    [⟨"0123456789abcdef01234567", "Dune", "F. Herbert", "9780441013593",
      "Fantasy", 1965, 412, none, none⟩]
    ⟨none, none, [("sort", "asc")]⟩
  have ha := C7_list_whitelist_filter.2
    [⟨"0123456789abcdef01234567", "Jane Doe", "Kenya", "Female", "1960-01-01"⟩]
    ⟨none, none, none, none, [("page", "2")]⟩
  exact ⟨hb.1, hb.2.2.1 rfl rfl, ha.2.2.1 rfl rfl rfl rfl⟩

/-- The successful shape of the PUT /books/:id route. -/
theorem putBook_success_shape (db : List Book) (id : String) (u : BookPayload)
    (year : Int) (b0 : Book)
    (hv : validateBookUpdate id u year = [])
    (hdup : putBookDupCheck db id u = false)
    (hfind : db.find? (fun x => x.id == id) = some b0) :
    putBookRoute db id u year .ok =
      (⟨200, .successMsgData "Book updated successfully" (applyBookUpdate b0 u)⟩,
       db.map (fun x => if x.id == id then applyBookUpdate x u else x)) := by
  simp [putBookRoute, hv, putBook, hdup, hfind]

/-- A 200 answer of the PUT /books/:id route means validation, the duplicate
pre-check and the storage call all passed. -/
theorem putBook_success_inv (db : List Book) (id : String) (u : BookPayload)
    (year : Int) (save : SaveOutcome)
    (h200 : (putBookRoute db id u year save).1.status = 200) :
    validateBookUpdate id u year = [] ∧ putBookDupCheck db id u = false ∧
      save = .ok := by
  cases hv : validateBookUpdate id u year with
  | cons e es => rw [putBookRoute] at h200; rw [hv] at h200; simp at h200
  | nil =>
    by_cases hdup : putBookDupCheck db id u = true
    · rw [putBookRoute] at h200; rw [hv] at h200
      simp [putBook, hdup, bookConflictPre] at h200
    · have hdf : putBookDupCheck db id u = false := Bool.not_eq_true _ ▸ hdup
      refine ⟨rfl, hdf, ?_⟩
      cases save with
      | ok => rfl
      | dupKey =>
        rw [putBookRoute] at h200; rw [hv] at h200
        simp [putBook, hdf, bookConflictDup] at h200
      | dbError =>
        rw [putBookRoute] at h200; rw [hv] at h200
        simp [putBook, hdf] at h200

/-- The successful shape of the PUT /authors/:id route. -/
theorem putAuthor_success_shape (db : List Author) (id : String) (u : AuthorPayload)
    (a0 : Author)
    (hv : validateAuthorUpdate id u = [])
    (hdup : putAuthorDupCheck db id u = false)
    (hfind : db.find? (fun x => x.id == id) = some a0) :
    putAuthorRoute db id u .ok =
      (⟨200, .successMsgData "Author updated successfully" (applyAuthorUpdate a0 u)⟩,
       db.map (fun x => if x.id == id then applyAuthorUpdate x u else x)) := by
  simp [putAuthorRoute, hv, putAuthor, hdup, hfind]

/-- A 200 answer of the PUT /authors/:id route means validation, the
duplicate pre-check and the storage call all passed. -/
theorem putAuthor_success_inv (db : List Author) (id : String) (u : AuthorPayload)
    (save : SaveOutcome)
    (h200 : (putAuthorRoute db id u save).1.status = 200) :
    validateAuthorUpdate id u = [] ∧ putAuthorDupCheck db id u = false ∧
      save = .ok := by
  cases hv : validateAuthorUpdate id u with
  | cons e es => rw [putAuthorRoute] at h200; rw [hv] at h200; simp at h200
  | nil =>
    by_cases hdup : putAuthorDupCheck db id u = true
    · rw [putAuthorRoute] at h200; rw [hv] at h200
      simp [putAuthor, hdup, authorConflictPre] at h200
    · have hdf : putAuthorDupCheck db id u = false := Bool.not_eq_true _ ▸ hdup
      refine ⟨rfl, hdf, ?_⟩
      cases save with
      | ok => rfl
      | dupKey =>
        rw [putAuthorRoute] at h200; rw [hv] at h200
        simp [putAuthor, hdf, authorConflictDup] at h200
      | dbError =>
        rw [putAuthorRoute] at h200; rw [hv] at h200
        simp [putAuthor, hdf] at h200

/-- Claim C2: a successful partial Update changes only the supplied fields:
the response carries the merge of the payload into the stored record, every
unsupplied field keeps its pre-update value, every supplied field takes the
sanitized payload value, and a payload whose merge leaves the record equal to
itself is a no-op on the collection. -/
theorem C2_partial_update_frame :
    (∀ (db : List Book) (id : String) (u : BookPayload) (year : Int)
        (save : SaveOutcome) (b0 : Book),
      (db.map Book.id).Nodup →
      (putBookRoute db id u year save).1.status = 200 →
      db.find? (fun x => x.id == id) = some b0 →
      (putBookRoute db id u year save).1.body
          = .successMsgData "Book updated successfully" (applyBookUpdate b0 u) ∧
      (applyBookUpdate b0 u).id = b0.id ∧
      (u.title = none → (applyBookUpdate b0 u).title = b0.title) ∧
      (u.author = none → (applyBookUpdate b0 u).author = b0.author) ∧
      (u.isbn = none → (applyBookUpdate b0 u).isbn = b0.isbn) ∧
      (u.genre = none → (applyBookUpdate b0 u).genre = b0.genre) ∧
      (u.publicationYear = none → (applyBookUpdate b0 u).publicationYear = b0.publicationYear) ∧
      (u.pages = none → (applyBookUpdate b0 u).pages = b0.pages) ∧
      (u.description = none → (applyBookUpdate b0 u).description = b0.description) ∧
      (u.available = none → (applyBookUpdate b0 u).available = b0.available) ∧
      (∀ t, u.title = some t → (applyBookUpdate b0 u).title = strTrim t) ∧
      (∀ t, u.author = some t → (applyBookUpdate b0 u).author = strTrim t) ∧
      (∀ t, u.isbn = some t → (applyBookUpdate b0 u).isbn = strTrim t) ∧
      (∀ t, u.genre = some t → (applyBookUpdate b0 u).genre = t) ∧
      (∀ n, u.publicationYear = some n → (applyBookUpdate b0 u).publicationYear = n) ∧
      (∀ n, u.pages = some n → (applyBookUpdate b0 u).pages = n) ∧
      (∀ t, u.description = some t → (applyBookUpdate b0 u).description = some (strTrim t)) ∧
      (∀ v, u.available = some v → (applyBookUpdate b0 u).available = some v) ∧
      (applyBookUpdate b0 u = b0 → (putBookRoute db id u year save).2 = db)) ∧
    (∀ (db : List Author) (id : String) (u : AuthorPayload)
        (save : SaveOutcome) (a0 : Author),
      (db.map Author.id).Nodup →
      (putAuthorRoute db id u save).1.status = 200 →
      db.find? (fun x => x.id == id) = some a0 →
      (putAuthorRoute db id u save).1.body
          = .successMsgData "Author updated successfully" (applyAuthorUpdate a0 u) ∧
      (applyAuthorUpdate a0 u).id = a0.id ∧
      (u.fullname = none → (applyAuthorUpdate a0 u).fullname = a0.fullname) ∧
      (u.country = none → (applyAuthorUpdate a0 u).country = a0.country) ∧
      (u.gender = none → (applyAuthorUpdate a0 u).gender = a0.gender) ∧
      (u.birthdate = none → (applyAuthorUpdate a0 u).birthdate = a0.birthdate) ∧
      (∀ t, u.fullname = some t → (applyAuthorUpdate a0 u).fullname = strTrim t) ∧
      (∀ t, u.country = some t → (applyAuthorUpdate a0 u).country = strTrim t) ∧
      (∀ t, u.gender = some t → (applyAuthorUpdate a0 u).gender = t) ∧
      (∀ t, u.birthdate = some t → (applyAuthorUpdate a0 u).birthdate = t) ∧
      (applyAuthorUpdate a0 u = a0 → (putAuthorRoute db id u save).2 = db)) := by
  constructor
  · intro db id u year save b0 hnd h200 hfind
    obtain ⟨hv, hdup, hok⟩ := putBook_success_inv db id u year save h200
    subst hok
    have hshape := putBook_success_shape db id u year b0 hv hdup hfind
    refine ⟨by rw [hshape], rfl, ?_, ?_, ?_, ?_, ?_, ?_, ?_, ?_,
      ?_, ?_, ?_, ?_, ?_, ?_, ?_, ?_, ?_⟩
    · intro h; simp [applyBookUpdate, h]
    · intro h; simp [applyBookUpdate, h]
    · intro h; simp [applyBookUpdate, h]
    · intro h; simp [applyBookUpdate, h]
    · intro h; simp [applyBookUpdate, h]
    · intro h; simp [applyBookUpdate, h]
    · intro h; simp [applyBookUpdate, h]
    · intro h; simp [applyBookUpdate, h]
    · intro t h; simp [applyBookUpdate, h]
    · intro t h; simp [applyBookUpdate, h]
    · intro t h; simp [applyBookUpdate, h]
    · intro t h; simp [applyBookUpdate, h]
    · intro n h; simp [applyBookUpdate, h]
    · intro n h; simp [applyBookUpdate, h]
    · intro t h; simp [applyBookUpdate, h]
    · intro v h; simp [applyBookUpdate, h]
    · intro hfix
      rw [hshape]
      exact map_if_id_of_nodup Book.id (fun x => applyBookUpdate x u) id db b0 hnd hfind hfix
  · intro db id u save a0 hnd h200 hfind
    obtain ⟨hv, hdup, hok⟩ := putAuthor_success_inv db id u save h200
    subst hok
    have hshape := putAuthor_success_shape db id u a0 hv hdup hfind
    refine ⟨by rw [hshape], rfl, ?_, ?_, ?_, ?_, ?_, ?_, ?_, ?_, ?_⟩
    · intro h; simp [applyAuthorUpdate, h]
    · intro h; simp [applyAuthorUpdate, h]
    · intro h; simp [applyAuthorUpdate, h]
    · intro h; simp [applyAuthorUpdate, h]
    · intro t h; simp [applyAuthorUpdate, h]
    · intro t h; simp [applyAuthorUpdate, h]
    · intro t h; simp [applyAuthorUpdate, h]
    · intro t h; simp [applyAuthorUpdate, h]
    · intro hfix
      rw [hshape]
      exact map_if_id_of_nodup Author.id (fun x => applyAuthorUpdate x u) id db a0 hnd hfind hfix

/-- Witness for C2: a concrete successful partial update on each resource. -/
theorem C2_witness :
    (putBookRoute
      [⟨"0123456789abcdef01234567", "Dune", "F. Herbert", "9780441013593",
        "Fantasy", 1965, 412, none, none⟩]
      "0123456789abcdef01234567" { title := some " Dune Messiah " } 2025 .ok).1.body
      = .successMsgData "Book updated successfully"
          (applyBookUpdate
            ⟨"0123456789abcdef01234567", "Dune", "F. Herbert", "9780441013593",
             "Fantasy", 1965, 412, none, none⟩
            { title := some " Dune Messiah " }) ∧
    (applyBookUpdate
      ⟨"0123456789abcdef01234567", "Dune", "F. Herbert", "9780441013593",
       "Fantasy", 1965, 412, none, none⟩
      { title := some " Dune Messiah " }).author = "F. Herbert" ∧
    (putAuthorRoute
      [⟨"0123456789abcdef01234567", "Jane Doe", "Kenya", "Female", "1960-01-01"⟩]
      "0123456789abcdef01234567"
      { country := some "Ghana", birthdate := some "1960-01-01" } .ok).1.body
      = .successMsgData "Author updated successfully"
          (applyAuthorUpdate
            ⟨"0123456789abcdef01234567", "Jane Doe", "Kenya", "Female", "1960-01-01"⟩
            { country := some "Ghana", birthdate := some "1960-01-01" }) := by
  have hb := C2_partial_update_frame.1
    [⟨"0123456789abcdef01234567", "Dune", "F. Herbert", "9780441013593",
      "Fantasy", 1965, 412, none, none⟩]
    "0123456789abcdef01234567" { title := some " Dune Messiah " } 2025 .ok
    ⟨"0123456789abcdef01234567", "Dune", "F. Herbert", "9780441013593",
     "Fantasy", 1965, 412, none, none⟩
    (by decide) (by decide) (by decide)
  have ha := C2_partial_update_frame.2
    [⟨"0123456789abcdef01234567", "Jane Doe", "Kenya", "Female", "1960-01-01"⟩]
    "0123456789abcdef01234567"
    { country := some "Ghana", birthdate := some "1960-01-01" } .ok
    ⟨"0123456789abcdef01234567", "Jane Doe", "Kenya", "Female", "1960-01-01"⟩
    (by decide) (by decide) (by decide)
  exact ⟨hb.1, hb.2.2.2.1 rfl, ha.1⟩

/-- Claim C4: a Create with a valid payload, a fresh isbn and a fresh
generated id, followed by Get-by-id on that id, answers 201 then 200 with
exactly the created record: the sanitized payload fields plus the generated
id. -/
theorem C4_create_get_roundtrip :
    ∀ (db : List Book) (b : BookPayload) (year : Int) (newId : String),
      validateBookCreate b year = [] →
      isMongoId newId = true →
      (∀ x ∈ db, x.isbn ≠ bodyIsbn b) →
      (∀ x ∈ db, x.id ≠ newId) →
      (postBookRoute db b year newId .ok).1.status = 201 ∧
      getBookByIdRoute (postBookRoute db b year newId .ok).2 newId
        = ⟨200, .successData (mkBook newId b)⟩ ∧
      (mkBook newId b).id = newId ∧
      (mkBook newId b).title = strTrim (b.title.getD "") ∧
      (mkBook newId b).author = strTrim (b.author.getD "") ∧
      (mkBook newId b).isbn = strTrim (b.isbn.getD "") ∧
      (mkBook newId b).genre = b.genre.getD "" ∧
      (mkBook newId b).publicationYear = b.publicationYear.getD 0 ∧
      (mkBook newId b).pages = b.pages.getD 0 ∧
      (mkBook newId b).description = b.description.map strTrim ∧
      (mkBook newId b).available = b.available := by
  intro db b year newId hval hid hfresh hidfresh
  have hfn : db.find? (fun x => x.isbn == bodyIsbn b) = none :=
    List.find?_eq_none.mpr (fun x hx => by simp [hfresh x hx])
  have hroute : postBookRoute db b year newId .ok
      = (⟨201, .successMsgData "Book created successfully" (mkBook newId b)⟩,
         db ++ [mkBook newId b]) := by
    simp [postBookRoute, hval, postBook, hfn]
  refine ⟨by rw [hroute], ?_, rfl, rfl, rfl, rfl, rfl, rfl, rfl, rfl, rfl⟩
  rw [hroute]
  have hfid : db.find? (fun x => x.id == newId) = none :=
    List.find?_eq_none.mpr (fun x hx => by simp [hidfresh x hx])
  simp [getBookByIdRoute, hid, getBookById, hfid, mkBook]

/-- Witness for C4: a concrete Create of Dune into an empty collection and
the Get on the generated id. -/
theorem C4_witness :
    (postBookRoute []
      { title := some "Dune", author := some "F. Herbert", isbn := some "9780441013593",
        genre := some "Fantasy", publicationYear := some 1965, pages := some 412 }
      2025 "0123456789abcdef01234567" .ok).1.status = 201 ∧
    getBookByIdRoute
      (postBookRoute []
        { title := some "Dune", author := some "F. Herbert", isbn := some "9780441013593",
          genre := some "Fantasy", publicationYear := some 1965, pages := some 412 }
        2025 "0123456789abcdef01234567" .ok).2
      "0123456789abcdef01234567"
      = ⟨200, .successData (mkBook "0123456789abcdef01234567"
          { title := some "Dune", author := some "F. Herbert", isbn := some "9780441013593",
            genre := some "Fantasy", publicationYear := some 1965, pages := some 412 })⟩ := by
  have h := C4_create_get_roundtrip []
    { title := some "Dune", author := some "F. Herbert", isbn := some "9780441013593",
      genre := some "Fantasy", publicationYear := some 1965, pages := some 412 }
    2025 "0123456789abcdef01234567" (by decide) (by decide)
    (by intro x hx; cases hx) (by intro x hx; cases hx)
  exact ⟨h.1, h.2.1⟩

end BookLib
